import Mathlib

/-!
Verification of the DMG signing tool (src/tibok/scripts/sign-dmg-ed25519.py).

The script is embedded shallowly: the filesystem and the Ed25519 library are
abstract structures of pure functions, `main` is a pure function from those
plus the argument vector to a run result (the list of lines printed to
standard output, the process exit code, and a trace of the effects
performed).  Python byte strings and text are modelled as lists of natural
numbers (byte values / code points); the lenient base64 decoder
(`base64.b64decode` with `validate=False`, i.e. CPython `a2b_base64` in
non-strict mode) is modelled character by character.
-/

set_option autoImplicit false

deriving instance DecidableEq for Except

namespace SignDmg

/-- Value of a character in the standard base64 alphabet, `none` when the
character is outside the alphabet (CPython table_a2b_base64, with the pad
character handled separately). -/
def b64Val (c : Nat) : Option Nat :=
  if 65 ≤ c ∧ c ≤ 90 then some (c - 65)
  else if 97 ≤ c ∧ c ≤ 122 then some (c - 97 + 26)
  else if 48 ≤ c ∧ c ≤ 57 then some (c - 48 + 52)
  else if c = 43 then some 62
  else if c = 47 then some 63
  else none

/-- A character of the base64 alphabet or the pad character `=`. -/
def isBase64Alphabet (c : Nat) : Bool :=
  (b64Val c).isSome || c = 61

/-- CPython binascii.a2b_base64 in non-strict mode (the mode
`base64.b64decode` uses with `validate=False`): characters outside the
alphabet are discarded; a pad character completes a quad of 2 or 3 data
characters and ends the parse; a trailing quad of 1 data character, or of
2 or 3 data characters without completing padding, is an error.  State:
current quad position, pending high bits, pad count of the current quad,
reversed output accumulator. -/
def a2bAux : List Nat → Nat → Nat → Nat → List Nat → Except String (List Nat)
  | [], quadPos, _, _, acc =>
      if quadPos = 0 then Except.ok acc.reverse
      else if quadPos = 1 then
        Except.error "Invalid base64-encoded string: number of data characters cannot be 1 more than a multiple of 4"
      else Except.error "Incorrect padding"
  | c :: rest, quadPos, leftchar, pads, acc =>
      if c = 61 then
        if 2 ≤ quadPos ∧ 4 ≤ quadPos + (pads + 1) then Except.ok acc.reverse
        else a2bAux rest quadPos leftchar (if 2 ≤ quadPos then pads + 1 else pads) acc
      else
        match b64Val c with
        | none => a2bAux rest quadPos leftchar pads acc
        | some v =>
          match quadPos with
          | 0 => a2bAux rest 1 v 0 acc
          | 1 => a2bAux rest 2 (v % 16) 0 ((leftchar * 4 + v / 16) :: acc)
          | 2 => a2bAux rest 3 (v % 4) 0 ((leftchar * 16 + v / 4) :: acc)
          | _ => a2bAux rest 0 0 0 ((leftchar * 64 + v) :: acc)

/-- Python `base64.b64decode` applied to a text string (list of code
points): the string is first encoded as ASCII (failing on code points 128
and above), then decoded leniently. -/
def pyB64Decode (cps : List Nat) : Except String (List Nat) :=
  if cps.any (fun c => 128 ≤ c) then
    Except.error "string argument should contain only ASCII characters"
  else a2bAux cps 0 0 0 []

/-- Whitespace for Python `str.strip` (the ASCII range plus the common
one-code-point Unicode whitespace). -/
def isPySpace (c : Nat) : Bool :=
  c = 9 || c = 10 || c = 11 || c = 12 || c = 13 ||
  c = 28 || c = 29 || c = 30 || c = 31 || c = 32 || c = 133 || c = 160

/-- Python `str.strip()`: drop whitespace from both ends. -/
def pyStrip (cps : List Nat) : List Nat :=
  ((cps.dropWhile isPySpace).reverse.dropWhile isPySpace).reverse

/-- One character of the standard base64 alphabet, by value. -/
def b64Char (v : Nat) : Char :=
  (("ABCDEFGHIJKLMNOPQRSTUVWXYZabcdefghijklmnopqrstuvwxyz0123456789+/").toList).getD v 'A'

/-- Python `base64.b64encode` (then decoded as ascii text): standard
base64 with `=` padding. -/
def b64encode : List Nat → String
  | [] => ""
  | [b1] =>
      String.mk [b64Char (b1 / 4), b64Char (b1 % 4 * 16), '=', '=']
  | [b1, b2] =>
      String.mk [b64Char (b1 / 4), b64Char (b1 % 4 * 16 + b2 / 16),
                 b64Char (b2 % 16 * 4), '=']
  | b1 :: b2 :: b3 :: rest =>
      String.mk [b64Char (b1 / 4), b64Char (b1 % 4 * 16 + b2 / 16),
                 b64Char (b2 % 16 * 4 + b3 / 64), b64Char (b3 % 64)] ++ b64encode rest

/-- Snapshot of the filesystem and process environment the script touches:
which paths are regular files, the text content of a file (code points, for
the key file read in text mode), the raw bytes of a file (for the artifact,
whose read may fail), the metadata size of a file, and the home directory
used to resolve the default key path. -/
structure FS where
  isfile : String → Bool
  readText : String → List Nat
  readBin : String → Except String (List Nat)
  getsize : String → Nat
  homeDir : String

/-- The external cryptography library boundary: whether the import
succeeds, whether the private-key constructor accepts a seed, and the
Ed25519 signing primitive as a pure function of seed and message (Ed25519
signing is deterministic, so a pure function is a faithful model). -/
structure Crypto where
  importOk : Bool
  fromPrivateBytes : List Nat → Except String Unit
  signResult : List Nat → List Nat → Except String (List Nat)

/-- Effects performed by a run, in order. -/
inductive Event where
  | readKey (path : String)
  | constructKey
  | readArtifact (path : String)
  | sign
  deriving DecidableEq, Repr

/-- Result of a run: lines printed to standard output, process exit code,
and the trace of effects. -/
structure RunResult where
  out : List String
  exitCode : Nat
  events : List Event
  deriving DecidableEq, Repr

/-- The 42-character separator line (`"=" * 42`). -/
def eqLine : String := "=========================================="

/-- The fixed download URL printed by the tool. -/
def fixedURL : String :=
  "https://github.com/sturdy-barnacle/md-editor/releases/download/v1.0.2/Tibok-1.0.2.dmg"

/-- Usage text printed when no artifact path is supplied. -/
def usageLines : List String :=
  ["Usage: sign-dmg-ed25519.py <path-to-dmg> [path-to-key-file]",
   "",
   "Signs a DMG file with EdDSA private key for Sparkle updates.",
   "Outputs the signature suitable for appcast.xml",
   "",
   "Arguments:",
   "  <path-to-dmg>       Path to the DMG file to sign",
   "  [path-to-key-file]  Path to EdDSA private key (default: ~/.tibok_sparkle_key.pem)"]

/-- The progress banner printed once both files exist, before signing. -/
def bannerLines (dmg keyf : String) : List String :=
  [eqLine,
   "Signing DMG with EdDSA Key (Ed25519)",
   eqLine,
   "DMG: " ++ dmg,
   "Key file: " ++ keyf,
   "",
   "Signing DMG..."]

/-- Error output when the key file is missing, including the generation
guidance. -/
def missingKeyLines (keyf : String) : List String :=
  ["Error: Private key file not found: " ++ keyf,
   "",
   "To generate the key file, run:",
   "  arch -arm64 ./Frameworks/generate_keys --account ed25519 -x ~/.tibok_sparkle_key.pem",
   ""]

/-- Error output when the cryptography library cannot be imported. -/
def importErrorLines : List String :=
  ["Error: cryptography library not found",
   "",
   "Install it with:",
   "  pip3 install cryptography"]

/-- Everything printed after the banner on a successful run, as a function
of the base64 signature and the artifact size of that run. -/
def successTail (sig : String) (size : Nat) : List String :=
  ["",
   eqLine,
   "✓ Signature Generated Successfully",
   eqLine,
   "",
   "EdDSA Signature (for appcast.xml):",
   "",
   sig,
   "",
   "File Information:",
   "  Size: " ++ toString size ++ " bytes",
   "  URL: " ++ fixedURL,
   "",
   eqLine,
   "Update appcast.xml with this signature:",
   eqLine,
   "",
   "Replace the enclosure element with:",
   "",
   "    <enclosure",
   "        url=\"" ++ fixedURL ++ "\"",
   "        sparkle:edSignature=\"" ++ sig ++ "\"",
   "        length=\"" ++ toString size ++ "\"",
   "        type=\"application/octet-stream\"",
   "    />",
   ""]

/-- The artifact path: `sys.argv[1]`. -/
def dmgPathOf (argv : List String) : String := argv.getD 1 ""

/-- The key path: `sys.argv[2]` when supplied, else the fixed dotfile
under the home directory. -/
def keyPathOf (fs : FS) (argv : List String) : String :=
  if 2 < argv.length then argv.getD 2 "" else fs.homeDir ++ "/.tibok_sparkle_key.pem"

/-- Shallow embedding of `main` of sign-dmg-ed25519.py: argument check,
artifact and key existence checks, banner, library import, key read and
decode, length check, key construction, artifact read, signing, and the
success output. -/
def main (fs : FS) (crypto : Crypto) (argv : List String) : RunResult :=
  if argv.length < 2 then ⟨usageLines, 1, []⟩
  else
    let dmg_path := dmgPathOf argv
    let key_file := keyPathOf fs argv
    if fs.isfile dmg_path = false then
      ⟨["Error: DMG file not found: " ++ dmg_path], 1, []⟩
    else if fs.isfile key_file = false then
      ⟨missingKeyLines key_file, 1, []⟩
    else
      let banner := bannerLines dmg_path key_file
      if crypto.importOk = false then
        ⟨banner ++ importErrorLines, 1, []⟩
      else
        let key_seed_b64 := pyStrip (fs.readText key_file)
        match pyB64Decode key_seed_b64 with
        | Except.error e =>
            ⟨banner ++ ["Error: Failed to decode private key: " ++ e], 1,
             [Event.readKey key_file]⟩
        | Except.ok key_seed =>
          if key_seed.length ≠ 32 then
            ⟨banner ++ ["Error: Invalid key seed length: " ++ toString key_seed.length ++
                        " (expected 32 bytes)"], 1,
             [Event.readKey key_file]⟩
          else
            match crypto.fromPrivateBytes key_seed with
            | Except.error e =>
                ⟨banner ++ ["Error: Failed to create private key: " ++ e], 1,
                 [Event.readKey key_file]⟩
            | Except.ok _ =>
              match fs.readBin dmg_path with
              | Except.error e =>
                  ⟨banner ++ ["Error: Failed to read DMG: " ++ e], 1,
                   [Event.readKey key_file, Event.constructKey]⟩
              | Except.ok dmg_data =>
                match crypto.signResult key_seed dmg_data with
                | Except.error e =>
                    ⟨banner ++ ["Error: Failed to sign DMG: " ++ e], 1,
                     [Event.readKey key_file, Event.constructKey,
                      Event.readArtifact dmg_path]⟩
                | Except.ok signature_bytes =>
                  let signature_b64 := b64encode signature_bytes
                  let dmg_size := fs.getsize dmg_path
                  ⟨banner ++ successTail signature_b64 dmg_size, 0,
                   [Event.readKey key_file, Event.constructKey,
                    Event.readArtifact dmg_path, Event.sign]⟩

/-- A line carrying the error marker the script uses (`"Error: "`). -/
def errorMarked (s : String) : Bool := s.data.take 7 == "Error: ".data

/-! ### Branch characterizations of `main` -/

theorem main_usage (fs : FS) (crypto : Crypto) (argv : List String)
    (h : argv.length < 2) :
    main fs crypto argv = ⟨usageLines, 1, []⟩ := by
  simp [main, h]

theorem main_noDmg (fs : FS) (crypto : Crypto) (argv : List String)
    (ha : 2 ≤ argv.length) (hd : fs.isfile (dmgPathOf argv) = false) :
    main fs crypto argv = ⟨["Error: DMG file not found: " ++ dmgPathOf argv], 1, []⟩ := by
  simp [main, Nat.not_lt.mpr ha, hd]

theorem main_noKey (fs : FS) (crypto : Crypto) (argv : List String)
    (ha : 2 ≤ argv.length) (hd : fs.isfile (dmgPathOf argv) = true)
    (hk : fs.isfile (keyPathOf fs argv) = false) :
    main fs crypto argv = ⟨missingKeyLines (keyPathOf fs argv), 1, []⟩ := by
  simp [main, Nat.not_lt.mpr ha, hd, hk]

theorem main_noImport (fs : FS) (crypto : Crypto) (argv : List String)
    (ha : 2 ≤ argv.length) (hd : fs.isfile (dmgPathOf argv) = true)
    (hk : fs.isfile (keyPathOf fs argv) = true) (hi : crypto.importOk = false) :
    main fs crypto argv =
      ⟨bannerLines (dmgPathOf argv) (keyPathOf fs argv) ++ importErrorLines, 1, []⟩ := by
  simp [main, Nat.not_lt.mpr ha, hd, hk, hi]

theorem main_decodeErr (fs : FS) (crypto : Crypto) (argv : List String) (e : String)
    (ha : 2 ≤ argv.length) (hd : fs.isfile (dmgPathOf argv) = true)
    (hk : fs.isfile (keyPathOf fs argv) = true) (hi : crypto.importOk = true)
    (hdec : pyB64Decode (pyStrip (fs.readText (keyPathOf fs argv))) = Except.error e) :
    main fs crypto argv =
      ⟨bannerLines (dmgPathOf argv) (keyPathOf fs argv) ++
         ["Error: Failed to decode private key: " ++ e], 1,
       [Event.readKey (keyPathOf fs argv)]⟩ := by
  simp [main, Nat.not_lt.mpr ha, hd, hk, hi, hdec]

theorem main_lenErr (fs : FS) (crypto : Crypto) (argv : List String) (seed : List Nat)
    (ha : 2 ≤ argv.length) (hd : fs.isfile (dmgPathOf argv) = true)
    (hk : fs.isfile (keyPathOf fs argv) = true) (hi : crypto.importOk = true)
    (hdec : pyB64Decode (pyStrip (fs.readText (keyPathOf fs argv))) = Except.ok seed)
    (hne : seed.length ≠ 32) :
    main fs crypto argv =
      ⟨bannerLines (dmgPathOf argv) (keyPathOf fs argv) ++
         ["Error: Invalid key seed length: " ++ toString seed.length ++
          " (expected 32 bytes)"], 1,
       [Event.readKey (keyPathOf fs argv)]⟩ := by
  simp [main, Nat.not_lt.mpr ha, hd, hk, hi, hdec, hne]

theorem main_ctorErr (fs : FS) (crypto : Crypto) (argv : List String)
    (seed : List Nat) (e : String)
    (ha : 2 ≤ argv.length) (hd : fs.isfile (dmgPathOf argv) = true)
    (hk : fs.isfile (keyPathOf fs argv) = true) (hi : crypto.importOk = true)
    (hdec : pyB64Decode (pyStrip (fs.readText (keyPathOf fs argv))) = Except.ok seed)
    (hlen : seed.length = 32)
    (hctor : crypto.fromPrivateBytes seed = Except.error e) :
    main fs crypto argv =
      ⟨bannerLines (dmgPathOf argv) (keyPathOf fs argv) ++
         ["Error: Failed to create private key: " ++ e], 1,
       [Event.readKey (keyPathOf fs argv)]⟩ := by
  simp [main, Nat.not_lt.mpr ha, hd, hk, hi, hdec, hlen, hctor]

theorem main_readErr (fs : FS) (crypto : Crypto) (argv : List String)
    (seed : List Nat) (e : String)
    (ha : 2 ≤ argv.length) (hd : fs.isfile (dmgPathOf argv) = true)
    (hk : fs.isfile (keyPathOf fs argv) = true) (hi : crypto.importOk = true)
    (hdec : pyB64Decode (pyStrip (fs.readText (keyPathOf fs argv))) = Except.ok seed)
    (hlen : seed.length = 32)
    (hctor : crypto.fromPrivateBytes seed = Except.ok ())
    (hread : fs.readBin (dmgPathOf argv) = Except.error e) :
    main fs crypto argv =
      ⟨bannerLines (dmgPathOf argv) (keyPathOf fs argv) ++
         ["Error: Failed to read DMG: " ++ e], 1,
       [Event.readKey (keyPathOf fs argv), Event.constructKey]⟩ := by
  simp [main, Nat.not_lt.mpr ha, hd, hk, hi, hdec, hlen, hctor, hread]

theorem main_signErr (fs : FS) (crypto : Crypto) (argv : List String)
    (seed data : List Nat) (e : String)
    (ha : 2 ≤ argv.length) (hd : fs.isfile (dmgPathOf argv) = true)
    (hk : fs.isfile (keyPathOf fs argv) = true) (hi : crypto.importOk = true)
    (hdec : pyB64Decode (pyStrip (fs.readText (keyPathOf fs argv))) = Except.ok seed)
    (hlen : seed.length = 32)
    (hctor : crypto.fromPrivateBytes seed = Except.ok ())
    (hread : fs.readBin (dmgPathOf argv) = Except.ok data)
    (hsig : crypto.signResult seed data = Except.error e) :
    main fs crypto argv =
      ⟨bannerLines (dmgPathOf argv) (keyPathOf fs argv) ++
         ["Error: Failed to sign DMG: " ++ e], 1,
       [Event.readKey (keyPathOf fs argv), Event.constructKey,
        Event.readArtifact (dmgPathOf argv)]⟩ := by
  simp [main, Nat.not_lt.mpr ha, hd, hk, hi, hdec, hlen, hctor, hread, hsig]

theorem main_success (fs : FS) (crypto : Crypto) (argv : List String)
    (seed data sig : List Nat)
    (ha : 2 ≤ argv.length) (hd : fs.isfile (dmgPathOf argv) = true)
    (hk : fs.isfile (keyPathOf fs argv) = true) (hi : crypto.importOk = true)
    (hdec : pyB64Decode (pyStrip (fs.readText (keyPathOf fs argv))) = Except.ok seed)
    (hlen : seed.length = 32)
    (hctor : crypto.fromPrivateBytes seed = Except.ok ())
    (hread : fs.readBin (dmgPathOf argv) = Except.ok data)
    (hsig : crypto.signResult seed data = Except.ok sig) :
    main fs crypto argv =
      ⟨bannerLines (dmgPathOf argv) (keyPathOf fs argv) ++
         successTail (b64encode sig) (fs.getsize (dmgPathOf argv)), 0,
       [Event.readKey (keyPathOf fs argv), Event.constructKey,
        Event.readArtifact (dmgPathOf argv), Event.sign]⟩ := by
  simp [main, Nat.not_lt.mpr ha, hd, hk, hi, hdec, hlen, hctor, hread, hsig]

/-! ### Positions of the data-carrying lines of a successful run -/

theorem out_sig_line (d k s : String) (n : Nat) :
    (bannerLines d k ++ successTail s n)[14]? = some s := rfl

theorem out_size_line (d k s : String) (n : Nat) :
    (bannerLines d k ++ successTail s n)[17]? =
      some ("  Size: " ++ toString n ++ " bytes") := rfl

theorem out_url_line (d k s : String) (n : Nat) :
    (bannerLines d k ++ successTail s n)[18]? = some ("  URL: " ++ fixedURL) := rfl

theorem out_enclosure_url_line (d k s : String) (n : Nat) :
    (bannerLines d k ++ successTail s n)[27]? =
      some ("        url=\"" ++ fixedURL ++ "\"") := rfl

theorem out_enclosure_sig_line (d k s : String) (n : Nat) :
    (bannerLines d k ++ successTail s n)[28]? =
      some ("        sparkle:edSignature=\"" ++ s ++ "\"") := rfl

theorem out_enclosure_length_line (d k s : String) (n : Nat) :
    (bannerLines d k ++ successTail s n)[29]? =
      some ("        length=\"" ++ toString n ++ "\"") := rfl

/-! ### Concrete fixtures used to instantiate the theorems -/

/-- Code points of a text string. -/
def strToCps (s : String) : List Nat := s.toList.map Char.toNat

/-- A filesystem snapshot with exactly two regular files: the artifact and
the key file. -/
def mkFS (dmg keyf : String) (keyContent : List Nat) (artifact : List Nat)
    (size : Nat) : FS where
  isfile := fun p => p == dmg || p == keyf
  readText := fun _ => keyContent
  readBin := fun _ => Except.ok artifact
  getsize := fun _ => size
  homeDir := "/home/user"

/-- A well-behaved Ed25519 library model: constructor accepts exactly
32-byte seeds, signing always succeeds with a fixed 64-byte signature. -/
def okCrypto : Crypto where
  importOk := true
  fromPrivateBytes := fun s => if s.length = 32 then Except.ok () else Except.error "bad seed"
  signResult := fun _ _ => Except.ok (List.replicate 64 0)

/-- Base64 text of a 32-byte all-zero seed. -/
def seed32b64 : String := "AAAAAAAAAAAAAAAAAAAAAAAAAAAAAAAAAAAAAAAAAAA="

/-- Base64 text of a 16-byte all-zero seed. -/
def seed16b64 : String := "AAAAAAAAAAAAAAAAAAAAAA=="

/-- The first five characters of a string, used to tell output lines
apart even when their tails are unknown. -/
def take5 (s : String) : List Char := s.data.take 5

theorem ne_of_take5 {a b : String} (h : take5 a ≠ take5 b) : a ≠ b :=
  fun e => h (by rw [e])

/-- Every run falls in exactly one of the ten branches of `main`. -/
theorem main_cases (fs : FS) (crypto : Crypto) (argv : List String) :
    (argv.length < 2 ∧ main fs crypto argv = ⟨usageLines, 1, []⟩) ∨
    main fs crypto argv =
      ⟨["Error: DMG file not found: " ++ dmgPathOf argv], 1, []⟩ ∨
    main fs crypto argv = ⟨missingKeyLines (keyPathOf fs argv), 1, []⟩ ∨
    main fs crypto argv =
      ⟨bannerLines (dmgPathOf argv) (keyPathOf fs argv) ++ importErrorLines, 1, []⟩ ∨
    (∃ e, main fs crypto argv =
      ⟨bannerLines (dmgPathOf argv) (keyPathOf fs argv) ++
         ["Error: Failed to decode private key: " ++ e], 1,
       [Event.readKey (keyPathOf fs argv)]⟩) ∨
    (∃ n : Nat, main fs crypto argv =
      ⟨bannerLines (dmgPathOf argv) (keyPathOf fs argv) ++
         ["Error: Invalid key seed length: " ++ toString n ++ " (expected 32 bytes)"], 1,
       [Event.readKey (keyPathOf fs argv)]⟩) ∨
    (∃ e, main fs crypto argv =
      ⟨bannerLines (dmgPathOf argv) (keyPathOf fs argv) ++
         ["Error: Failed to create private key: " ++ e], 1,
       [Event.readKey (keyPathOf fs argv)]⟩) ∨
    (∃ e, main fs crypto argv =
      ⟨bannerLines (dmgPathOf argv) (keyPathOf fs argv) ++
         ["Error: Failed to read DMG: " ++ e], 1,
       [Event.readKey (keyPathOf fs argv), Event.constructKey]⟩) ∨
    (∃ e, main fs crypto argv =
      ⟨bannerLines (dmgPathOf argv) (keyPathOf fs argv) ++
         ["Error: Failed to sign DMG: " ++ e], 1,
       [Event.readKey (keyPathOf fs argv), Event.constructKey,
        Event.readArtifact (dmgPathOf argv)]⟩) ∨
    (∃ s n, main fs crypto argv =
      ⟨bannerLines (dmgPathOf argv) (keyPathOf fs argv) ++ successTail s n, 0,
       [Event.readKey (keyPathOf fs argv), Event.constructKey,
        Event.readArtifact (dmgPathOf argv), Event.sign]⟩) := by
  by_cases h1 : argv.length < 2
  · exact Or.inl ⟨h1, main_usage fs crypto argv h1⟩
  have ha : 2 ≤ argv.length := Nat.le_of_not_lt h1
  cases hd : fs.isfile (dmgPathOf argv) with
  | false => exact Or.inr (Or.inl (main_noDmg fs crypto argv ha hd))
  | true =>
  cases hk : fs.isfile (keyPathOf fs argv) with
  | false => exact Or.inr (Or.inr (Or.inl (main_noKey fs crypto argv ha hd hk)))
  | true =>
  cases hi : crypto.importOk with
  | false =>
      exact Or.inr (Or.inr (Or.inr (Or.inl (main_noImport fs crypto argv ha hd hk hi))))
  | true =>
  cases hdec : pyB64Decode (pyStrip (fs.readText (keyPathOf fs argv))) with
  | error e =>
      exact Or.inr (Or.inr (Or.inr (Or.inr (Or.inl
        ⟨e, main_decodeErr fs crypto argv e ha hd hk hi hdec⟩))))
  | ok seed =>
  by_cases hlen : seed.length = 32
  · cases hctor : crypto.fromPrivateBytes seed with
    | error e =>
        exact Or.inr (Or.inr (Or.inr (Or.inr (Or.inr (Or.inr (Or.inl
          ⟨e, main_ctorErr fs crypto argv seed e ha hd hk hi hdec hlen hctor⟩))))))
    | ok u =>
    cases u
    cases hread : fs.readBin (dmgPathOf argv) with
    | error e =>
        exact Or.inr (Or.inr (Or.inr (Or.inr (Or.inr (Or.inr (Or.inr (Or.inl
          ⟨e, main_readErr fs crypto argv seed e ha hd hk hi hdec hlen hctor hread⟩)))))))
    | ok data =>
    cases hsig : crypto.signResult seed data with
    | error e =>
        exact Or.inr (Or.inr (Or.inr (Or.inr (Or.inr (Or.inr (Or.inr (Or.inr (Or.inl
          ⟨e, main_signErr fs crypto argv seed data e ha hd hk hi hdec hlen hctor
             hread hsig⟩))))))))
    | ok sig =>
        exact Or.inr (Or.inr (Or.inr (Or.inr (Or.inr (Or.inr (Or.inr (Or.inr (Or.inr
          ⟨b64encode sig, fs.getsize (dmgPathOf argv),
           main_success fs crypto argv seed data sig ha hd hk hi hdec hlen hctor
             hread hsig⟩))))))))
  · exact Or.inr (Or.inr (Or.inr (Or.inr (Or.inr (Or.inl
      ⟨seed.length, main_lenErr fs crypto argv seed ha hd hk hi hdec hlen⟩)))))

/-! ### Claim theorems -/

/-- C1: for every valid 32-byte key seed and every artifact byte content,
running the sign operation twice over the same seed and the same content
yields identical 64-byte signature bytes: the two runs print the same
base64 signature line, namely the base64 encoding of the one 64-byte
signature the Ed25519 primitive produces for that seed and content. -/
theorem signing_deterministic (crypto : Crypto) (fs₁ fs₂ : FS)
    (argv₁ argv₂ : List String) (seed data sig : List Nat)
    (h64 : ∀ s d sg, crypto.signResult s d = Except.ok sg → sg.length = 64)
    (ha₁ : 2 ≤ argv₁.length) (hd₁ : fs₁.isfile (dmgPathOf argv₁) = true)
    (hk₁ : fs₁.isfile (keyPathOf fs₁ argv₁) = true) (hi : crypto.importOk = true)
    (hdec₁ : pyB64Decode (pyStrip (fs₁.readText (keyPathOf fs₁ argv₁))) = Except.ok seed)
    (hlen : seed.length = 32)
    (hctor : crypto.fromPrivateBytes seed = Except.ok ())
    (hread₁ : fs₁.readBin (dmgPathOf argv₁) = Except.ok data)
    (ha₂ : 2 ≤ argv₂.length) (hd₂ : fs₂.isfile (dmgPathOf argv₂) = true)
    (hk₂ : fs₂.isfile (keyPathOf fs₂ argv₂) = true)
    (hdec₂ : pyB64Decode (pyStrip (fs₂.readText (keyPathOf fs₂ argv₂))) = Except.ok seed)
    (hread₂ : fs₂.readBin (dmgPathOf argv₂) = Except.ok data)
    (hsig : crypto.signResult seed data = Except.ok sig) :
    sig.length = 64 ∧
    (main fs₁ crypto argv₁).out[14]? = some (b64encode sig) ∧
    (main fs₂ crypto argv₂).out[14]? = some (b64encode sig) := by
  refine ⟨h64 seed data sig hsig, ?_, ?_⟩
  · rw [main_success fs₁ crypto argv₁ seed data sig ha₁ hd₁ hk₁ hi hdec₁ hlen hctor hread₁ hsig]
    exact out_sig_line _ _ _ _
  · rw [main_success fs₂ crypto argv₂ seed data sig ha₂ hd₂ hk₂ hi hdec₂ hlen hctor hread₂ hsig]
    exact out_sig_line _ _ _ _

def fsA : FS := mkFS "/tmp/a.dmg" "/tmp/a.pem" (strToCps seed32b64) [104, 105] 2

def fsB : FS := mkFS "/opt/b.dmg" "/opt/b.pem" (strToCps seed32b64) [104, 105] 9

theorem signing_deterministic_witness :
    (List.replicate 64 (0 : Nat)).length = 64 ∧
    (main fsA okCrypto ["sign", "/tmp/a.dmg", "/tmp/a.pem"]).out[14]? =
      some (b64encode (List.replicate 64 0)) ∧
    (main fsB okCrypto ["sign", "/opt/b.dmg", "/opt/b.pem"]).out[14]? =
      some (b64encode (List.replicate 64 0)) :=
  signing_deterministic okCrypto fsA fsB _ _ (List.replicate 32 0) [104, 105]
    (List.replicate 64 0)
    (fun _ _ sg h => by injection h with h2; rw [← h2]; decide)
    (by decide) (by decide) (by decide) (by decide) (by decide) (by decide)
    (by decide) (by decide) (by decide) (by decide) (by decide) (by decide)
    (by decide) (by decide)

/-- C2: for every key file whose content decodes to a byte string of
length other than 32, the run prints an invalid-key-length error line
reporting the actual decoded length, exits with status 1, and neither
constructs a private key nor signs. -/
theorem invalid_key_length_rejected (fs : FS) (crypto : Crypto)
    (argv : List String) (seed : List Nat)
    (ha : 2 ≤ argv.length) (hd : fs.isfile (dmgPathOf argv) = true)
    (hk : fs.isfile (keyPathOf fs argv) = true) (hi : crypto.importOk = true)
    (hdec : pyB64Decode (pyStrip (fs.readText (keyPathOf fs argv))) = Except.ok seed)
    (hne : seed.length ≠ 32) :
    (main fs crypto argv).out =
      bannerLines (dmgPathOf argv) (keyPathOf fs argv) ++
        ["Error: Invalid key seed length: " ++ toString seed.length ++
         " (expected 32 bytes)"] ∧
    (main fs crypto argv).exitCode = 1 ∧
    Event.constructKey ∉ (main fs crypto argv).events ∧
    Event.sign ∉ (main fs crypto argv).events := by
  rw [main_lenErr fs crypto argv seed ha hd hk hi hdec hne]
  refine ⟨rfl, rfl, ?_, ?_⟩ <;> simp

def fs16 : FS := mkFS "/tmp/c.dmg" "/tmp/c.pem" (strToCps seed16b64) [1, 2, 3] 3

theorem invalid_key_length_rejected_witness :
    (main fs16 okCrypto ["sign", "/tmp/c.dmg", "/tmp/c.pem"]).out =
      bannerLines (dmgPathOf ["sign", "/tmp/c.dmg", "/tmp/c.pem"])
          (keyPathOf fs16 ["sign", "/tmp/c.dmg", "/tmp/c.pem"]) ++
        ["Error: Invalid key seed length: " ++ toString (List.replicate 16 (0 : Nat)).length ++
         " (expected 32 bytes)"] ∧
    (main fs16 okCrypto ["sign", "/tmp/c.dmg", "/tmp/c.pem"]).exitCode = 1 ∧
    Event.constructKey ∉ (main fs16 okCrypto ["sign", "/tmp/c.dmg", "/tmp/c.pem"]).events ∧
    Event.sign ∉ (main fs16 okCrypto ["sign", "/tmp/c.dmg", "/tmp/c.pem"]).events :=
  invalid_key_length_rejected fs16 okCrypto _ (List.replicate 16 0)
    (by decide) (by decide) (by decide) (by decide) (by decide) (by decide)

/-- C6: for every artifact path that is not an existing regular file, the
run prints the single missing-artifact error line, exits with status 1,
and performs no effect at all (in particular it neither reads the key
file nor signs). -/
theorem missing_artifact_fails (fs : FS) (crypto : Crypto) (argv : List String)
    (ha : 2 ≤ argv.length) (hd : fs.isfile (dmgPathOf argv) = false) :
    main fs crypto argv =
      ⟨["Error: DMG file not found: " ++ dmgPathOf argv], 1, []⟩ ∧
    (main fs crypto argv).events = [] := by
  have h := main_noDmg fs crypto argv ha hd
  exact ⟨h, by rw [h]⟩

def fsNoDmg : FS := mkFS "/tmp/other.dmg" "/tmp/d.pem" (strToCps seed32b64) [] 0

theorem missing_artifact_fails_witness :
    main fsNoDmg okCrypto ["sign", "/tmp/does-not-exist.dmg"] =
      ⟨["Error: DMG file not found: " ++ dmgPathOf ["sign", "/tmp/does-not-exist.dmg"]],
       1, []⟩ ∧
    (main fsNoDmg okCrypto ["sign", "/tmp/does-not-exist.dmg"]).events = [] :=
  missing_artifact_fails fsNoDmg okCrypto _ (by decide) (by decide)

/-- C7: for every key path (supplied or defaulted) that is not an existing
regular file, given the artifact exists, the run prints the missing-key
error whose output includes the key-generation guidance line, and exits
with status 1. -/
theorem missing_key_fails (fs : FS) (crypto : Crypto) (argv : List String)
    (ha : 2 ≤ argv.length) (hd : fs.isfile (dmgPathOf argv) = true)
    (hk : fs.isfile (keyPathOf fs argv) = false) :
    main fs crypto argv = ⟨missingKeyLines (keyPathOf fs argv), 1, []⟩ ∧
    "To generate the key file, run:" ∈ (main fs crypto argv).out ∧
    (main fs crypto argv).exitCode = 1 := by
  have h := main_noKey fs crypto argv ha hd hk
  refine ⟨h, ?_, by rw [h]⟩
  rw [h]
  simp [missingKeyLines]

def fsNoKey : FS := mkFS "/tmp/e.dmg" "/tmp/absent.pem" (strToCps seed32b64) [7] 1

theorem missing_key_fails_witness :
    main fsNoKey okCrypto ["sign", "/tmp/e.dmg", "/tmp/missing.pem"] =
      ⟨missingKeyLines (keyPathOf fsNoKey ["sign", "/tmp/e.dmg", "/tmp/missing.pem"]), 1, []⟩ ∧
    "To generate the key file, run:" ∈
      (main fsNoKey okCrypto ["sign", "/tmp/e.dmg", "/tmp/missing.pem"]).out ∧
    (main fsNoKey okCrypto ["sign", "/tmp/e.dmg", "/tmp/missing.pem"]).exitCode = 1 :=
  missing_key_fails fsNoKey okCrypto _ (by decide) (by decide) (by decide)

/-- C8: on every successful run, the standalone signature line, the size
line, and the printed enclosure element all embed the very values computed
in that run: the base64 encoding of the signature produced by this run,
and the byte count obtained from filesystem metadata (`fs.getsize`), not
from re-reading the artifact content. -/
theorem enclosure_embeds_run_values (fs : FS) (crypto : Crypto)
    (argv : List String) (seed data sig : List Nat)
    (ha : 2 ≤ argv.length) (hd : fs.isfile (dmgPathOf argv) = true)
    (hk : fs.isfile (keyPathOf fs argv) = true) (hi : crypto.importOk = true)
    (hdec : pyB64Decode (pyStrip (fs.readText (keyPathOf fs argv))) = Except.ok seed)
    (hlen : seed.length = 32)
    (hctor : crypto.fromPrivateBytes seed = Except.ok ())
    (hread : fs.readBin (dmgPathOf argv) = Except.ok data)
    (hsig : crypto.signResult seed data = Except.ok sig) :
    (main fs crypto argv).out[14]? = some (b64encode sig) ∧
    (main fs crypto argv).out[17]? =
      some ("  Size: " ++ toString (fs.getsize (dmgPathOf argv)) ++ " bytes") ∧
    (main fs crypto argv).out[28]? =
      some ("        sparkle:edSignature=\"" ++ b64encode sig ++ "\"") ∧
    (main fs crypto argv).out[29]? =
      some ("        length=\"" ++ toString (fs.getsize (dmgPathOf argv)) ++ "\"") := by
  rw [main_success fs crypto argv seed data sig ha hd hk hi hdec hlen hctor hread hsig]
  exact ⟨out_sig_line _ _ _ _, out_size_line _ _ _ _,
         out_enclosure_sig_line _ _ _ _, out_enclosure_length_line _ _ _ _⟩

def fsC8 : FS := mkFS "/tmp/f.dmg" "/tmp/f.pem" (strToCps seed32b64) [5, 6, 7] 11

theorem enclosure_embeds_run_values_witness :
    (main fsC8 okCrypto ["sign", "/tmp/f.dmg", "/tmp/f.pem"]).out[14]? =
      some (b64encode (List.replicate 64 0)) ∧
    (main fsC8 okCrypto ["sign", "/tmp/f.dmg", "/tmp/f.pem"]).out[17]? =
      some ("  Size: " ++
        toString (fsC8.getsize (dmgPathOf ["sign", "/tmp/f.dmg", "/tmp/f.pem"])) ++ " bytes") ∧
    (main fsC8 okCrypto ["sign", "/tmp/f.dmg", "/tmp/f.pem"]).out[28]? =
      some ("        sparkle:edSignature=\"" ++ b64encode (List.replicate 64 0) ++ "\"") ∧
    (main fsC8 okCrypto ["sign", "/tmp/f.dmg", "/tmp/f.pem"]).out[29]? =
      some ("        length=\"" ++
        toString (fsC8.getsize (dmgPathOf ["sign", "/tmp/f.dmg", "/tmp/f.pem"])) ++ "\"") :=
  enclosure_embeds_run_values fsC8 okCrypto _ (List.replicate 32 0) [5, 6, 7]
    (List.replicate 64 0) (by decide) (by decide) (by decide) (by decide)
    (by decide) (by decide) (by decide) (by decide) (by decide)

/-- C9: on every successful run, whatever the artifact path, key file and
content, the URL printed on the standalone URL line and inside the
enclosure element is the one fixed string `fixedURL`, not derived from the
inputs. -/
theorem download_url_fixed (fs : FS) (crypto : Crypto)
    (argv : List String) (seed data sig : List Nat)
    (ha : 2 ≤ argv.length) (hd : fs.isfile (dmgPathOf argv) = true)
    (hk : fs.isfile (keyPathOf fs argv) = true) (hi : crypto.importOk = true)
    (hdec : pyB64Decode (pyStrip (fs.readText (keyPathOf fs argv))) = Except.ok seed)
    (hlen : seed.length = 32)
    (hctor : crypto.fromPrivateBytes seed = Except.ok ())
    (hread : fs.readBin (dmgPathOf argv) = Except.ok data)
    (hsig : crypto.signResult seed data = Except.ok sig) :
    (main fs crypto argv).out[18]? = some ("  URL: " ++ fixedURL) ∧
    (main fs crypto argv).out[27]? = some ("        url=\"" ++ fixedURL ++ "\"") := by
  rw [main_success fs crypto argv seed data sig ha hd hk hi hdec hlen hctor hread hsig]
  exact ⟨out_url_line _ _ _ _, out_enclosure_url_line _ _ _ _⟩

/-- A string is not in a list of lines when its five-character head
differs from that of every line (the check on the lines evaluates even
when their tails are unknown). -/
theorem notMem_take5 (x : String) (l : List String)
    (h : (l.all fun s => !(take5 s == take5 x)) = true) : x ∉ l := by
  intro hm
  have h2 := List.all_eq_true.mp h x hm
  simp at h2

/-- C3 (amended): for every key file whose stripped content the lenient
base64 decode step rejects, the run prints a key-decode error line, exits
with status 1, and does not sign.  (Content merely containing characters
outside the base64 alphabet is not necessarily rejected: the decoder
discards such characters first; see the counterexample.) -/
theorem key_decode_error_rejected (fs : FS) (crypto : Crypto)
    (argv : List String) (e : String)
    (ha : 2 ≤ argv.length) (hd : fs.isfile (dmgPathOf argv) = true)
    (hk : fs.isfile (keyPathOf fs argv) = true) (hi : crypto.importOk = true)
    (hdec : pyB64Decode (pyStrip (fs.readText (keyPathOf fs argv))) = Except.error e) :
    (main fs crypto argv).out =
      bannerLines (dmgPathOf argv) (keyPathOf fs argv) ++
        ["Error: Failed to decode private key: " ++ e] ∧
    (main fs crypto argv).exitCode = 1 ∧
    Event.sign ∉ (main fs crypto argv).events := by
  rw [main_decodeErr fs crypto argv e ha hd hk hi hdec]
  refine ⟨rfl, rfl, ?_⟩
  simp

def fsBad : FS := mkFS "/tmp/h.dmg" "/tmp/h.pem" (strToCps "not-base64-!!") [1] 1

def pyLenErrMsg : String :=
  "Invalid base64-encoded string: number of data characters cannot be 1 more than a multiple of 4"

theorem key_decode_error_rejected_witness :
    (main fsBad okCrypto ["sign", "/tmp/h.dmg", "/tmp/h.pem"]).out =
      bannerLines (dmgPathOf ["sign", "/tmp/h.dmg", "/tmp/h.pem"])
          (keyPathOf fsBad ["sign", "/tmp/h.dmg", "/tmp/h.pem"]) ++
        ["Error: Failed to decode private key: " ++ pyLenErrMsg] ∧
    (main fsBad okCrypto ["sign", "/tmp/h.dmg", "/tmp/h.pem"]).exitCode = 1 ∧
    Event.sign ∉ (main fsBad okCrypto ["sign", "/tmp/h.dmg", "/tmp/h.pem"]).events :=
  key_decode_error_rejected fsBad okCrypto _ pyLenErrMsg
    (by decide) (by decide) (by decide) (by decide) (by decide)

/-- Key content that is not valid base64 (it contains the character `!`,
which lies outside the base64 alphabet) but whose surviving characters
decode to exactly 32 bytes. -/
def sneakB64 : String := "!" ++ seed32b64

def fsSneak : FS := mkFS "/tmp/i.dmg" "/tmp/i.pem" (strToCps sneakB64) [2] 1

/-- C3 counterexample: a key file whose content is not valid base64 (it
contains a character outside the base64 alphabet and the pad character)
on which the tool does not fail with a key-decode error: the run succeeds
and signs. -/
theorem key_decode_counterexample :
    (strToCps sneakB64).all isBase64Alphabet = false ∧
    (main fsSneak okCrypto ["sign", "/tmp/i.dmg", "/tmp/i.pem"]).exitCode = 0 ∧
    Event.sign ∈ (main fsSneak okCrypto ["sign", "/tmp/i.dmg", "/tmp/i.pem"]).events := by
  decide

/-- C4 counterexample: a failing run (invalid key length) whose first
output line is the banner separator, not an error-marked line, so output
does precede the error line of this failed run. -/
def fsC4 : FS := mkFS "/tmp/j.dmg" "/tmp/j.pem" (strToCps seed16b64) [4] 4

theorem banner_precedes_error_counterexample :
    (main fsC4 okCrypto ["sign", "/tmp/j.dmg", "/tmp/j.pem"]).exitCode = 1 ∧
    (main fsC4 okCrypto ["sign", "/tmp/j.dmg", "/tmp/j.pem"]).out.head? = some eqLine ∧
    errorMarked eqLine = false := by
  decide

/-- C4 (amended): on every failing run nothing of the signature block is
printed (neither the enclosure element nor the success banner), and every
line printed before the error-marked line is part of the usage text or of
the progress banner. -/
theorem failing_run_output_confined (fs : FS) (crypto : Crypto)
    (argv : List String) (hfail : (main fs crypto argv).exitCode = 1) :
    "    <enclosure" ∉ (main fs crypto argv).out ∧
    "✓ Signature Generated Successfully" ∉ (main fs crypto argv).out ∧
    ∀ l ∈ (main fs crypto argv).out.takeWhile (fun s => !errorMarked s),
      l ∈ usageLines ∨ l ∈ bannerLines (dmgPathOf argv) (keyPathOf fs argv) := by
  rcases main_cases fs crypto argv with
    ⟨h1, h⟩ | h | h | h | ⟨e, h⟩ | ⟨n, h⟩ | ⟨e, h⟩ | ⟨e, h⟩ | ⟨e, h⟩ | ⟨s, n, h⟩ <;>
    rw [h]
  · refine ⟨notMem_take5 _ _ rfl, notMem_take5 _ _ rfl, ?_⟩
    intro l hl
    have ht : List.takeWhile (fun s => !errorMarked s) usageLines = usageLines := rfl
    rw [ht] at hl
    exact Or.inl hl
  · refine ⟨notMem_take5 _ _ rfl, notMem_take5 _ _ rfl, ?_⟩
    intro l hl
    have ht : List.takeWhile (fun s => !errorMarked s)
        ["Error: DMG file not found: " ++ dmgPathOf argv] = [] := rfl
    rw [ht] at hl
    exact absurd hl (List.not_mem_nil l)
  · refine ⟨notMem_take5 _ _ rfl, notMem_take5 _ _ rfl, ?_⟩
    intro l hl
    have ht : List.takeWhile (fun s => !errorMarked s)
        (missingKeyLines (keyPathOf fs argv)) = [] := rfl
    rw [ht] at hl
    exact absurd hl (List.not_mem_nil l)
  · refine ⟨notMem_take5 _ _ rfl, notMem_take5 _ _ rfl, ?_⟩
    intro l hl
    have ht : List.takeWhile (fun s => !errorMarked s)
        (bannerLines (dmgPathOf argv) (keyPathOf fs argv) ++ importErrorLines) =
        bannerLines (dmgPathOf argv) (keyPathOf fs argv) := rfl
    rw [ht] at hl
    exact Or.inr hl
  · refine ⟨notMem_take5 _ _ rfl, notMem_take5 _ _ rfl, ?_⟩
    intro l hl
    have ht : List.takeWhile (fun s => !errorMarked s)
        (bannerLines (dmgPathOf argv) (keyPathOf fs argv) ++
          ["Error: Failed to decode private key: " ++ e]) =
        bannerLines (dmgPathOf argv) (keyPathOf fs argv) := rfl
    rw [ht] at hl
    exact Or.inr hl
  · refine ⟨notMem_take5 _ _ rfl, notMem_take5 _ _ rfl, ?_⟩
    intro l hl
    have ht : List.takeWhile (fun s => !errorMarked s)
        (bannerLines (dmgPathOf argv) (keyPathOf fs argv) ++
          ["Error: Invalid key seed length: " ++ toString n ++ " (expected 32 bytes)"]) =
        bannerLines (dmgPathOf argv) (keyPathOf fs argv) := rfl
    rw [ht] at hl
    exact Or.inr hl
  · refine ⟨notMem_take5 _ _ rfl, notMem_take5 _ _ rfl, ?_⟩
    intro l hl
    have ht : List.takeWhile (fun s => !errorMarked s)
        (bannerLines (dmgPathOf argv) (keyPathOf fs argv) ++
          ["Error: Failed to create private key: " ++ e]) =
        bannerLines (dmgPathOf argv) (keyPathOf fs argv) := rfl
    rw [ht] at hl
    exact Or.inr hl
  · refine ⟨notMem_take5 _ _ rfl, notMem_take5 _ _ rfl, ?_⟩
    intro l hl
    have ht : List.takeWhile (fun s => !errorMarked s)
        (bannerLines (dmgPathOf argv) (keyPathOf fs argv) ++
          ["Error: Failed to read DMG: " ++ e]) =
        bannerLines (dmgPathOf argv) (keyPathOf fs argv) := rfl
    rw [ht] at hl
    exact Or.inr hl
  · refine ⟨notMem_take5 _ _ rfl, notMem_take5 _ _ rfl, ?_⟩
    intro l hl
    have ht : List.takeWhile (fun s => !errorMarked s)
        (bannerLines (dmgPathOf argv) (keyPathOf fs argv) ++
          ["Error: Failed to sign DMG: " ++ e]) =
        bannerLines (dmgPathOf argv) (keyPathOf fs argv) := rfl
    rw [ht] at hl
    exact Or.inr hl
  · rw [h] at hfail
    exact nomatch hfail

theorem failing_run_output_confined_witness :
    "    <enclosure" ∉ (main fsC4 okCrypto ["sign", "/tmp/j.dmg", "/tmp/j.pem"]).out ∧
    "✓ Signature Generated Successfully" ∉
      (main fsC4 okCrypto ["sign", "/tmp/j.dmg", "/tmp/j.pem"]).out ∧
    ∀ l ∈ (main fsC4 okCrypto ["sign", "/tmp/j.dmg", "/tmp/j.pem"]).out.takeWhile
        (fun s => !errorMarked s),
      l ∈ usageLines ∨
      l ∈ bannerLines (dmgPathOf ["sign", "/tmp/j.dmg", "/tmp/j.pem"])
          (keyPathOf fsC4 ["sign", "/tmp/j.dmg", "/tmp/j.pem"]) :=
  failing_run_output_confined fsC4 okCrypto _ (by decide)

/-- C5: every run exits with code 0 exactly when the signature block was
printed, exits with code 0 or 1 and with nothing else, and on every
validation or signing failure (every failing run past the usage check)
prints exactly one error-marker-prefixed line. -/
theorem exit_code_policy (fs : FS) (crypto : Crypto) (argv : List String) :
    ((main fs crypto argv).exitCode = 0 ↔ "    <enclosure" ∈ (main fs crypto argv).out) ∧
    ((main fs crypto argv).exitCode = 0 ∨ (main fs crypto argv).exitCode = 1) ∧
    ((main fs crypto argv).exitCode = 1 → 2 ≤ argv.length →
      ((main fs crypto argv).out.filter errorMarked).length = 1) := by
  rcases main_cases fs crypto argv with
    ⟨h1, h⟩ | h | h | h | ⟨e, h⟩ | ⟨n, h⟩ | ⟨e, h⟩ | ⟨e, h⟩ | ⟨e, h⟩ | ⟨s, n, h⟩ <;>
    rw [h]
  · exact ⟨iff_of_false (fun h0 => nomatch h0) (notMem_take5 _ _ rfl),
      Or.inr rfl, fun _ h2 => absurd h1 (Nat.not_lt.mpr h2)⟩
  · exact ⟨iff_of_false (fun h0 => nomatch h0) (notMem_take5 _ _ rfl),
      Or.inr rfl, fun _ _ => rfl⟩
  · exact ⟨iff_of_false (fun h0 => nomatch h0) (notMem_take5 _ _ rfl),
      Or.inr rfl, fun _ _ => rfl⟩
  · exact ⟨iff_of_false (fun h0 => nomatch h0) (notMem_take5 _ _ rfl),
      Or.inr rfl, fun _ _ => rfl⟩
  · exact ⟨iff_of_false (fun h0 => nomatch h0) (notMem_take5 _ _ rfl),
      Or.inr rfl, fun _ _ => rfl⟩
  · exact ⟨iff_of_false (fun h0 => nomatch h0) (notMem_take5 _ _ rfl),
      Or.inr rfl, fun _ _ => rfl⟩
  · exact ⟨iff_of_false (fun h0 => nomatch h0) (notMem_take5 _ _ rfl),
      Or.inr rfl, fun _ _ => rfl⟩
  · exact ⟨iff_of_false (fun h0 => nomatch h0) (notMem_take5 _ _ rfl),
      Or.inr rfl, fun _ _ => rfl⟩
  · exact ⟨iff_of_false (fun h0 => nomatch h0) (notMem_take5 _ _ rfl),
      Or.inr rfl, fun _ _ => rfl⟩
  · exact ⟨iff_of_true rfl (by simp [bannerLines, successTail]),
      Or.inl rfl, fun h0 _ => nomatch h0⟩

def fsC5 : FS := mkFS "/tmp/m.dmg" "/tmp/m.pem" (strToCps seed16b64) [8] 8

theorem exit_code_policy_witness :
    ((main fsC5 okCrypto ["sign", "/tmp/m.dmg", "/tmp/m.pem"]).out.filter
        errorMarked).length = 1 := by
  have h := exit_code_policy fsC5 okCrypto ["sign", "/tmp/m.dmg", "/tmp/m.pem"]
  exact h.2.2 (by decide) (by decide)

/-- Key content containing only characters outside the base64 alphabet
before a run of data characters: the decoder discards the dots and
decodes the rest to 32 bytes. -/
def dotB64 : String := "...." ++ seed32b64

/-- Key content whose surviving characters decode to 3 bytes. -/
def dotShortB64 : String := "..AAAA"

def fsDots : FS := mkFS "/tmp/k.dmg" "/tmp/k.pem" (strToCps dotB64) [3] 2

def fsDots2 : FS := mkFS "/tmp/l.dmg" "/tmp/l.pem" (strToCps dotShortB64) [3] 2

/-- C10: there exist key-file contents with characters outside the base64
alphabet on which the decode step does not fail: the dots are silently
discarded, the run proceeds to the 32-byte length check (reporting a
length error, not a decode error, when the surviving characters decode to
3 bytes), and when the surviving characters decode to 32 bytes the run
proceeds all the way to signing. -/
theorem lenient_decode_proceeds :
    (strToCps dotB64).all isBase64Alphabet = false ∧
    pyB64Decode (pyStrip (strToCps dotB64)) = Except.ok (List.replicate 32 0) ∧
    (main fsDots okCrypto ["sign", "/tmp/k.dmg", "/tmp/k.pem"]).exitCode = 0 ∧
    Event.sign ∈ (main fsDots okCrypto ["sign", "/tmp/k.dmg", "/tmp/k.pem"]).events ∧
    (strToCps dotShortB64).all isBase64Alphabet = false ∧
    pyB64Decode (pyStrip (strToCps dotShortB64)) = Except.ok [0, 0, 0] ∧
    (main fsDots2 okCrypto ["sign", "/tmp/l.dmg", "/tmp/l.pem"]).out =
      bannerLines "/tmp/l.dmg" "/tmp/l.pem" ++
        ["Error: Invalid key seed length: 3 (expected 32 bytes)"] := by
  decide

def fsC9 : FS := mkFS "/tmp/g.dmg" "/tmp/g.pem" (strToCps seed32b64) [9] 1

theorem download_url_fixed_witness :
    (main fsC9 okCrypto ["sign", "/tmp/g.dmg", "/tmp/g.pem"]).out[18]? =
      some ("  URL: " ++ fixedURL) ∧
    (main fsC9 okCrypto ["sign", "/tmp/g.dmg", "/tmp/g.pem"]).out[27]? =
      some ("        url=\"" ++ fixedURL ++ "\"") :=
  download_url_fixed fsC9 okCrypto _ (List.replicate 32 0) [9] (List.replicate 64 0)
    (by decide) (by decide) (by decide) (by decide) (by decide) (by decide)
    (by decide) (by decide) (by decide)

end SignDmg
